import Mathlib

/-!
Shallow embedding of the ARECAbot dashboard's transport/session core:
`RobotApi` (src/services/api.ts) and the log/telemetry handling in
`App` (src/App.tsx).  JavaScript values are modelled by `JsVal`;
callback invocations and channel traffic by lists of `ApiEffect`.
-/

/-- A JavaScript value, as handled by the untyped message paths. -/
inductive JsVal where
  | null
  | undefined
  | bool (b : Bool)
  | num (n : Int)
  | str (s : String)
  | arr (xs : List JsVal)
  | obj (fields : List (String × JsVal))
  deriving Repr

/-- Lookup of an own property in an object's field list (`o.k`);
absent keys read as `undefined`, as in JavaScript. -/
def objLookup (fields : List (String × JsVal)) (k : String) : JsVal :=
  match fields.find? (fun p => p.1 == k) with
  | some p => p.2
  | none => JsVal.undefined

/-- Property access `v.k` on an arbitrary value: objects use their field
list, primitives have none of the accessed keys (reads as `undefined`). -/
def getField (v : JsVal) (k : String) : JsVal :=
  match v with
  | JsVal.obj fields => objLookup fields k
  | _ => JsVal.undefined

/-- JavaScript nullish coalescing `a ?? b`. -/
def nullishOr (a b : JsVal) : JsVal :=
  match a with
  | JsVal.null => b
  | JsVal.undefined => b
  | v => v

/-- `Array.isArray`. -/
def isArray (v : JsVal) : Bool :=
  match v with
  | JsVal.arr _ => true
  | _ => false

/-- JavaScript strict equality `v === s` against a string literal, as used
by the discriminator checks `obj.type === 'telemetry'` etc. -/
def isStr (v : JsVal) (s : String) : Bool :=
  match v with
  | JsVal.str t => t == s
  | _ => false


/-! ### JSON.stringify -/

/-- Lower-case hex digit. -/
def hexDigit (n : Nat) : Char :=
  if n < 10 then Char.ofNat (48 + n) else Char.ofNat (87 + n)

/-- Four-digit hex rendering used in `\uXXXX` escapes. -/
def hex4 (n : Nat) : String :=
  String.mk [hexDigit (n / 4096 % 16), hexDigit (n / 256 % 16),
             hexDigit (n / 16 % 16), hexDigit (n % 16)]

/-- Escape one character the way `JSON.stringify` escapes string contents. -/
def jsonEscapeChar (c : Char) : String :=
  if c = '"' then "\\\""
  else if c = '\\' then "\\\\"
  else if c = '\n' then "\\n"
  else if c = '\r' then "\\r"
  else if c = '\t' then "\\t"
  else if c = Char.ofNat 8 then "\\b"
  else if c = Char.ofNat 12 then "\\f"
  else if c.toNat < 32 then "\\u" ++ hex4 c.toNat
  else String.singleton c

/-- Quoted JSON string literal. -/
def jsonQuote (s : String) : String :=
  "\"" ++ String.join (s.data.map jsonEscapeChar) ++ "\""

mutual

/-- Rendering of a defined value by `JSON.stringify` (an `undefined`
reached inside an array renders as `null`; `undefined`-valued object
fields are dropped; the top-level `undefined` case is handled by
`jsonStringify`). -/
def renderJsonVal : JsVal → String
  | JsVal.null => "null"
  | JsVal.undefined => "null"
  | JsVal.bool true => "true"
  | JsVal.bool false => "false"
  | JsVal.num n => toString n
  | JsVal.str s => jsonQuote s
  | JsVal.arr xs => "[" ++ renderJsonArr xs ++ "]"
  | JsVal.obj fs => "\x7b" ++ renderJsonObj fs ++ "\x7d"

/-- Comma-joined element renderings of a JSON array. -/
def renderJsonArr : List JsVal → String
  | [] => ""
  | [x] => renderJsonVal x
  | x :: y :: xs => renderJsonVal x ++ "," ++ renderJsonArr (y :: xs)

/-- Comma-joined `"key":value` renderings; `undefined`-valued fields are
skipped, as `JSON.stringify` does. -/
def renderJsonObj : List (String × JsVal) → String
  | [] => ""
  | (_, JsVal.undefined) :: fs => renderJsonObj fs
  | (k, v) :: fs =>
      let rest := renderJsonObj fs
      let entry := jsonQuote k ++ ":" ++ renderJsonVal v
      if rest = "" then entry else entry ++ "," ++ rest

end

/-- `JSON.stringify`: returns `none` for a top-level `undefined`
(JavaScript returns the value `undefined`, not a string, there). -/
def jsonStringify (v : JsVal) : Option String :=
  match v with
  | JsVal.undefined => none
  | v => some (renderJsonVal v)

/-- Interpolation of a possibly-`undefined` string into a template
literal: `undefined` prints as `"undefined"`. -/
def templateOpt (v : Option String) : String :=
  match v with
  | some s => s
  | none => "undefined"


/-! ### String() conversion (template literals) -/

mutual

/-- Conversion of an array element inside `Array.prototype.toString`:
`null` and `undefined` become the empty string, other values convert
as usual. -/
def jsArrElem : JsVal → String
  | JsVal.null => ""
  | JsVal.undefined => ""
  | JsVal.bool true => "true"
  | JsVal.bool false => "false"
  | JsVal.num n => toString n
  | JsVal.str s => s
  | JsVal.arr xs => jsArrJoin xs
  | JsVal.obj _ => "[object Object]"

/-- Comma-join of array elements, as in `Array.prototype.toString`. -/
def jsArrJoin : List JsVal → String
  | [] => ""
  | [x] => jsArrElem x
  | x :: y :: xs => jsArrElem x ++ "," ++ jsArrJoin (y :: xs)

end

/-- JavaScript `String(v)` as used by template literals. -/
def jsToDisplay : JsVal → String
  | JsVal.null => "null"
  | JsVal.undefined => "undefined"
  | JsVal.bool true => "true"
  | JsVal.bool false => "false"
  | JsVal.num n => toString n
  | JsVal.str s => s
  | JsVal.arr xs => jsArrJoin xs
  | JsVal.obj _ => "[object Object]"

/-! ### Telemetry normalization and merging (src/App.tsx) -/

/-- `normalizeTelemetry` from `App.tsx`: the object literal

```
\x7b us: d.us ?? d.US, temp: d.temp ?? d.T, pressure: d.pressure ?? d.P,
  state: d.state ?? d.ST, pos: Array.isArray(d.pos) ? d.pos : null,
  dir: d.dir ?? d.DIR \x7d
```

Being an object literal, it always carries all six own keys, with value
`undefined` when both source keys are missing. -/
def normalizeTelemetry (d : JsVal) : List (String × JsVal) :=
  [("us", nullishOr (getField d "us") (getField d "US")),
   ("temp", nullishOr (getField d "temp") (getField d "T")),
   ("pressure", nullishOr (getField d "pressure") (getField d "P")),
   ("state", nullishOr (getField d "state") (getField d "ST")),
   ("pos", if isArray (getField d "pos") then getField d "pos" else JsVal.null),
   ("dir", nullishOr (getField d "dir") (getField d "DIR"))]

/-- Overwrite (or append) one own property, as assignment during an
object-spread copy does. -/
def setKey (o : List (String × JsVal)) (k : String) (v : JsVal) :
    List (String × JsVal) :=
  if o.any (fun p => p.1 == k) then
    o.map (fun p => if p.1 == k then (k, v) else p)
  else o ++ [(k, v)]

/-- JavaScript object spread `\x7b ...a, ...b \x7d`: every own enumerable
property of `b` — including properties whose value is `undefined` — is
copied over `a`. -/
def spreadMerge (a b : List (String × JsVal)) : List (String × JsVal) :=
  b.foldl (fun acc p => setKey acc p.1 p.2) a

/-- The telemetry-update handler in `App.tsx`:
`setTelemetry(prev => (\x7b ...prev, ...normalizeTelemetry(data) \x7d))`. -/
def applyTelemetryUpdate (prev : List (String × JsVal)) (data : JsVal) :
    List (String × JsVal) :=
  spreadMerge prev (normalizeTelemetry data)

/-- The initial telemetry state in `App.tsx` (`null` placeholders and
`'---'` strings). -/
def initialTelemetry : List (String × JsVal) :=
  [("us", JsVal.null), ("temp", JsVal.null), ("pressure", JsVal.null),
   ("state", JsVal.str "---"), ("pos", JsVal.null), ("dir", JsVal.str "---")]

/-! ### The RobotApi session client (src/services/api.ts) -/

/-- One observable action of the `RobotApi` client: a framed emission on
the persistent channel, a fallback HTTP request, or an invocation of one
of the registered callbacks. -/
inductive ApiEffect where
  | wsEmit (cmd : String)
  | httpPost (body : String)
  | logCb (msg : String)
  | telemetryCb (v : JsVal)
  | ackCb (v : Option String)
  | connectCb (b : Bool)
  deriving Repr

/-- `RobotApi.log(type, msg)`: the `type` argument is ignored and the
message is forwarded to the `onLog` callback unchanged. -/
def robotLog (type msg : String) : List ApiEffect :=
  [ApiEffect.logCb msg]

/-- Dispatch on the `type` discriminator of a parsed inbound `message`
payload (the chain of `if`/`else if` in the `message` handler). -/
def classifyMessage (obj : JsVal) : List ApiEffect :=
  if isStr (getField obj "type") "telemetry" then
    [ApiEffect.telemetryCb (getField obj "data")]
  else if isStr (getField obj "type") "ack" then
    ApiEffect.ackCb (jsonStringify (getField obj "data")) ::
      robotLog "RX" ("ACK: " ++ templateOpt (jsonStringify (getField obj "data")))
  else if isStr (getField obj "type") "log" then
    robotLog "RX" ("LOG: " ++ jsToDisplay (getField obj "data"))
  else
    robotLog "RX" ("MSG: " ++ templateOpt (jsonStringify obj))

/-- The `message` event handler of `RobotApi.connect`.  `jsonParse`
models the external `JSON.parse`: `none` when it throws.  A string
payload that fails to parse is logged raw and handling stops. -/
def handleMessage (jsonParse : String → Option JsVal) (payload : JsVal) :
    List ApiEffect :=
  match payload with
  | JsVal.str s =>
      match jsonParse s with
      | none => robotLog "RX" s
      | some obj => classifyMessage obj
  | p => classifyMessage p

/-- The direct `telemetry` event handler of `RobotApi.connect`:
`(t) => this.onTelemetry?.(t)` — the payload is forwarded unwrapped. -/
def handleTelemetryEvent (t : JsVal) : List ApiEffect :=
  [ApiEffect.telemetryCb t]

/-- The JSON body `JSON.stringify(\x7b c: cmd \x7d)` of the fallback
request. -/
def cmdBody (cmd : String) : String :=
  templateOpt (jsonStringify (JsVal.obj [("c", JsVal.str cmd)]))

/-- `RobotApi.sendCmd(cmd)`.  `connected` is the persistent channel's
connectivity; `fetchResult` models the outcome of the external `fetch`
plus `res.text()` (`Except.error m` when it throws with message `m`).
The result is `Except.ok effs` when the call returns normally to its
caller — the `try`/`catch` around the fallback path turns both fetch
outcomes into a normal return. -/
def sendCmd (connected : Bool) (fetchResult : Except String String)
    (cmd : String) : Except String (List ApiEffect) :=
  if connected then
    Except.ok (ApiEffect.wsEmit cmd :: robotLog "TX" ("WS: " ++ cmd))
  else
    Except.ok
      (robotLog "TX" ("HTTP: " ++ cmd ++ " (Fallback)") ++
       ApiEffect.httpPost (cmdBody cmd) ::
         match fetchResult with
         | Except.ok text => robotLog "RX" ("HTTP Resp: " ++ text)
         | Except.error m => robotLog "SYS" ("HTTP Send Failed: " ++ m))


/-! ### The App log pipeline (src/App.tsx) -/

/-- Log entry category: `'tx' | 'rx' | 'sys'` from `types.ts`. -/
inductive LogCategory where
  | tx
  | rx
  | sys
  deriving DecidableEq, Repr

/-- `LogEntry` from `types.ts`. -/
structure LogEntry where
  id : String
  timestamp : String
  type : LogCategory
  message : String
  deriving DecidableEq, Repr

/-- JavaScript `s.startsWith(pre)`. -/
def jsStartsWith (s pre : String) : Bool :=
  pre.data.isPrefixOf s.data

/-- The category computation of the `api.onLog` handler in `App.tsx`:
`msg.startsWith('TX') ? 'tx' : msg.startsWith('RX') ? 'rx' : 'sys'`. -/
def classifyLogType (msg : String) : LogCategory :=
  if jsStartsWith msg "TX" then LogCategory.tx
  else if jsStartsWith msg "RX" then LogCategory.rx
  else LogCategory.sys

/-- After a matched tag: an optional `':'` then any whitespace (the
`:?\s*` tail of the regex; whitespace here is the ASCII whitespace the
messages can contain). -/
def stripTagRest (cs : List Char) : List Char :=
  let cs' := match cs with
             | ':' :: t => t
             | t => t
  cs'.dropWhile Char.isWhitespace

/-- `msg.replace(/^(TX|RX|SYS):?\s*/, '')` from the `api.onLog` handler:
remove one leading `TX`, `RX` or `SYS` tag together with an optional
colon and following whitespace; a message with no such tag is kept
verbatim. -/
def stripLogTag (msg : String) : String :=
  let cs := msg.data
  if cs.take 2 = ['T', 'X'] then String.mk (stripTagRest (cs.drop 2))
  else if cs.take 2 = ['R', 'X'] then String.mk (stripTagRest (cs.drop 2))
  else if cs.take 3 = ['S', 'Y', 'S'] then String.mk (stripTagRest (cs.drop 3))
  else msg

/-- `addLog` from `App.tsx`: prepend the new entry (fresh `id` and
`timestamp` are inputs here) and keep the first 100 entries
(`[entry, ...prev].slice(0, 100)`). -/
def addLog (id timestamp : String) (cat : LogCategory) (message : String)
    (prev : List LogEntry) : List LogEntry :=
  (⟨id, timestamp, cat, message⟩ :: prev).take 100

/-- The `api.onLog` handler installed by `App`: classify by the
message's own prefix, strip the tag, insert. -/
def onLogHandler (id timestamp msg : String) (prev : List LogEntry) :
    List LogEntry :=
  addLog id timestamp (classifyLogType msg) (stripLogTag msg) prev

/-- The log-callback messages of an effect list, in order. -/
def logMsgs (effs : List ApiEffect) : List String :=
  effs.filterMap (fun e =>
    match e with
    | ApiEffect.logCb m => some m
    | _ => none)

/-- The fallback-request bodies of an effect list, in order. -/
def httpBodies (effs : List ApiEffect) : List String :=
  effs.filterMap (fun e =>
    match e with
    | ApiEffect.httpPost b => some b
    | _ => none)


/-- Effect list of a normally-returning call (`[]` for a raised error;
used only on calls proven to return normally). -/
def effectsOf (r : Except String (List ApiEffect)) : List ApiEffect :=
  match r with
  | Except.ok effs => effs
  | Except.error _ => []

/-- The values handed to the telemetry callback, in order. -/
def telemetryPayloads (effs : List ApiEffect) : List JsVal :=
  effs.filterMap (fun e =>
    match e with
    | ApiEffect.telemetryCb v => some v
    | _ => none)


/-! ### Helper lemmas -/

/-- Nullish coalescing keeps a left operand that is neither `null` nor
`undefined`. -/
theorem nullishOr_eq_left (a b : JsVal) (h1 : a ≠ JsVal.null)
    (h2 : a ≠ JsVal.undefined) : nullishOr a b = a := by
  cases a
  · exact absurd rfl h1
  · exact absurd rfl h2
  all_goals rfl

/-- A list whose `pre.length`-prefix equals `pre` passes `isPrefixOf`. -/
theorem isPrefixOf_of_take_eq :
    ∀ (pre l : List Char), l.take pre.length = pre → pre.isPrefixOf l = true
  | [], l, _ => by cases l <;> rfl
  | a :: pre, [], h => by simp at h
  | a :: pre, b :: l, h => by
    simp [List.take] at h
    obtain ⟨h1, h2⟩ := h
    subst h1
    simp [List.isPrefixOf, isPrefixOf_of_take_eq pre l h2]

/-- Failing `startsWith` means the prefix of that length differs. -/
theorem take_ne_of_startsWith_eq_false (s pre : String)
    (h : jsStartsWith s pre = false) : s.data.take pre.data.length ≠ pre.data := by
  intro he
  rw [jsStartsWith, isPrefixOf_of_take_eq pre.data s.data he] at h
  cases h

/-- A message starting with the literal `"HTTP: "` classifies as `sys`
whatever follows. -/
theorem classify_http_fallback_sys (cmd : String) :
    classifyLogType ("HTTP: " ++ cmd ++ " (Fallback)") = LogCategory.sys := by
  cases cmd with
  | mk l => rfl

/-- A message starting with the literal `"HTTP Send Failed: "` classifies
as `sys` whatever follows. -/
theorem classify_http_fail_sys (m : String) :
    classifyLogType ("HTTP Send Failed: " ++ m) = LogCategory.sys := by
  cases m with
  | mk l => rfl

/-- A message starting with the literal `"ACK: "` classifies as `sys`
whatever follows. -/
theorem classify_ack_sys (s : String) :
    classifyLogType ("ACK: " ++ s) = LogCategory.sys := by
  cases s with
  | mk l => rfl

/-- The fallback-attempt message never equals the failure message (they
differ at their fifth character). -/
theorem fallback_beq_fail_false (cmd m : String) :
    (("HTTP: " ++ cmd ++ " (Fallback)") == ("HTTP Send Failed: " ++ m)) = false := by
  cases cmd with
  | mk l =>
    cases m with
    | mk l2 => rfl

/-! ### Claims -/

/-- C1: the claim says a telemetry field absent from an update retains
its previous value.  The code does the opposite: `normalizeTelemetry`
always emits all six keys (with `undefined` for absent fields), and the
JavaScript spread copies `undefined`-valued keys over the previous
snapshot.  Evaluated at a snapshot with `us = 5` and the update
`\x7b temp: 20 \x7d` (no `us`/`US` key), the merged snapshot's `us` is
`undefined`, not `5`, while the present field `temp` does update. -/
theorem telemetry_update_drops_absent_fields :
    objLookup [("us", JsVal.num 5), ("temp", JsVal.null), ("pressure", JsVal.null),
               ("state", JsVal.str "RUN"), ("pos", JsVal.null), ("dir", JsVal.str "N")]
        "us" = JsVal.num 5 ∧
    objLookup (applyTelemetryUpdate
        [("us", JsVal.num 5), ("temp", JsVal.null), ("pressure", JsVal.null),
         ("state", JsVal.str "RUN"), ("pos", JsVal.null), ("dir", JsVal.str "N")]
        (JsVal.obj [("temp", JsVal.num 20)])) "us" = JsVal.undefined ∧
    objLookup (applyTelemetryUpdate
        [("us", JsVal.num 5), ("temp", JsVal.null), ("pressure", JsVal.null),
         ("state", JsVal.str "RUN"), ("pos", JsVal.null), ("dir", JsVal.str "N")]
        (JsVal.obj [("temp", JsVal.num 20)])) "temp" = JsVal.num 20 ∧
    JsVal.undefined ≠ JsVal.num 5 :=
  ⟨rfl, rfl, rfl, fun h => JsVal.noConfusion h⟩

/-- C3 counterexample: a three-element `pos` array is not a two-element
pair, yet the normalized `pos` is that very array, not absent — the code
only checks `Array.isArray`, never the length. -/
theorem normalize_pos_three_element_cex :
    objLookup (normalizeTelemetry
        (JsVal.obj [("pos", JsVal.arr [JsVal.num 1, JsVal.num 2, JsVal.num 3])]))
        "pos" = JsVal.arr [JsVal.num 1, JsVal.num 2, JsVal.num 3] ∧
    JsVal.arr [JsVal.num 1, JsVal.num 2, JsVal.num 3] ≠ JsVal.null :=
  ⟨rfl, fun h => JsVal.noConfusion h⟩

/-- C3 amended: the normalized `pos` is absent (`null`) exactly when the
incoming `pos` is not an array — so non-array values (numbers, strings,
missing) are treated as absent, but an array of any length, two-element
or not, is passed through unchanged. -/
theorem normalize_pos_null_iff_not_array (d : JsVal) :
    (isArray (getField d "pos") = false →
      objLookup (normalizeTelemetry d) "pos" = JsVal.null) ∧
    (∀ xs, getField d "pos" = JsVal.arr xs →
      objLookup (normalizeTelemetry d) "pos" = JsVal.arr xs) := by
  have key : objLookup (normalizeTelemetry d) "pos"
      = if isArray (getField d "pos") then getField d "pos" else JsVal.null := rfl
  constructor
  · intro h
    rw [key, h]
    rfl
  · intro xs hxs
    rw [key, hxs]
    rfl

/-- C3 witness: a string-valued `pos` is normalized to absent. -/
theorem normalize_pos_null_iff_not_array_witness :
    isArray (getField (JsVal.obj [("pos", JsVal.str "x")]) "pos") = false ∧
    objLookup (normalizeTelemetry (JsVal.obj [("pos", JsVal.str "x")])) "pos"
      = JsVal.null :=
  ⟨rfl, (normalize_pos_null_iff_not_array (JsVal.obj [("pos", JsVal.str "x")])).1 rfl⟩

/-- C4 counterexample: with `us: null` and `US: 3` both provided, the
nullish coalescing `d.us ?? d.US` discards the long-form value `null`
and the normalized field equals the short-form value `3`. -/
theorem normalize_long_form_null_cex :
    objLookup (normalizeTelemetry
        (JsVal.obj [("us", JsVal.null), ("US", JsVal.num 3)])) "us"
      = JsVal.num 3 ∧
    JsVal.num 3 ≠ JsVal.null :=
  ⟨rfl, fun h => JsVal.noConfusion h⟩

/-- C4 amended: for each of the five coalesced fields, whenever the
long-form key's value is neither `null` nor `undefined` the normalized
field equals the long-form value (whatever the short-form key holds);
when the long-form value is nullish, the short-form value is used
instead. -/
theorem normalize_long_form_priority (d : JsVal) :
    (getField d "us" ≠ JsVal.null → getField d "us" ≠ JsVal.undefined →
      objLookup (normalizeTelemetry d) "us" = getField d "us") ∧
    (getField d "temp" ≠ JsVal.null → getField d "temp" ≠ JsVal.undefined →
      objLookup (normalizeTelemetry d) "temp" = getField d "temp") ∧
    (getField d "pressure" ≠ JsVal.null → getField d "pressure" ≠ JsVal.undefined →
      objLookup (normalizeTelemetry d) "pressure" = getField d "pressure") ∧
    (getField d "state" ≠ JsVal.null → getField d "state" ≠ JsVal.undefined →
      objLookup (normalizeTelemetry d) "state" = getField d "state") ∧
    (getField d "dir" ≠ JsVal.null → getField d "dir" ≠ JsVal.undefined →
      objLookup (normalizeTelemetry d) "dir" = getField d "dir") := by
  refine ⟨fun h1 h2 => ?_, fun h1 h2 => ?_, fun h1 h2 => ?_,
          fun h1 h2 => ?_, fun h1 h2 => ?_⟩
  · have key : objLookup (normalizeTelemetry d) "us"
        = nullishOr (getField d "us") (getField d "US") := rfl
    rw [key, nullishOr_eq_left _ _ h1 h2]
  · have key : objLookup (normalizeTelemetry d) "temp"
        = nullishOr (getField d "temp") (getField d "T") := rfl
    rw [key, nullishOr_eq_left _ _ h1 h2]
  · have key : objLookup (normalizeTelemetry d) "pressure"
        = nullishOr (getField d "pressure") (getField d "P") := rfl
    rw [key, nullishOr_eq_left _ _ h1 h2]
  · have key : objLookup (normalizeTelemetry d) "state"
        = nullishOr (getField d "state") (getField d "ST") := rfl
    rw [key, nullishOr_eq_left _ _ h1 h2]
  · have key : objLookup (normalizeTelemetry d) "dir"
        = nullishOr (getField d "dir") (getField d "DIR") := rfl
    rw [key, nullishOr_eq_left _ _ h1 h2]

/-- C4 witness: with `us: 5` and `US: 9` both provided, the normalized
field is the long-form value `5`. -/
theorem normalize_long_form_priority_witness :
    objLookup (normalizeTelemetry
        (JsVal.obj [("us", JsVal.num 5), ("US", JsVal.num 9)])) "us"
      = JsVal.num 5 :=
  (normalize_long_form_priority
      (JsVal.obj [("us", JsVal.num 5), ("US", JsVal.num 9)])).1
    (fun h => JsVal.noConfusion h) (fun h => JsVal.noConfusion h)

/-- C5: a log insertion never yields more than 100 entries, and an
insertion at capacity keeps the new entry followed by the first 99 old
ones in their newest-first order, evicting exactly the oldest (last)
entry. -/
theorem addLog_bounded_and_evicts_oldest (id ts : String) (cat : LogCategory)
    (msg : String) (prev : List LogEntry) :
    (addLog id ts cat msg prev).length ≤ 100 ∧
    (prev.length = 100 →
      addLog id ts cat msg prev = ⟨id, ts, cat, msg⟩ :: prev.dropLast) := by
  constructor
  · simp only [addLog, List.length_take]
    omega
  · intro h
    rw [addLog, List.dropLast_eq_take, h]
    rw [show (100 : Nat) = 99 + 1 from rfl, List.take_succ_cons]

/-- C5 witness: inserting into a log of exactly 100 entries. -/
theorem addLog_bounded_and_evicts_oldest_witness :
    (List.replicate 100 (⟨"a", "b", LogCategory.sys, "c"⟩ : LogEntry)).length
      = 100 ∧
    addLog "i" "t" LogCategory.tx "m"
        (List.replicate 100 (⟨"a", "b", LogCategory.sys, "c"⟩ : LogEntry))
      = ⟨"i", "t", LogCategory.tx, "m"⟩ ::
        (List.replicate 100 (⟨"a", "b", LogCategory.sys, "c"⟩ : LogEntry)).dropLast :=
  ⟨by simp,
   (addLog_bounded_and_evicts_oldest "i" "t" LogCategory.tx "m"
       (List.replicate 100 (⟨"a", "b", LogCategory.sys, "c"⟩ : LogEntry))).2
     (by simp)⟩

/-- C2 counterexample: the same enveloped payload
`\x7b type: "telemetry", data: \x7b us: 7 \x7d \x7d` delivered on the
`message` event hands `data` to the telemetry callback, but delivered on
the direct `telemetry` event it is handed over whole, envelope included —
the two inbound paths do not produce identical callback output for this
payload. -/
theorem telemetry_paths_differ_cex :
    handleMessage (fun _ => none)
        (JsVal.obj [("type", JsVal.str "telemetry"),
                    ("data", JsVal.obj [("us", JsVal.num 7)])])
      = [ApiEffect.telemetryCb (JsVal.obj [("us", JsVal.num 7)])] ∧
    handleTelemetryEvent
        (JsVal.obj [("type", JsVal.str "telemetry"),
                    ("data", JsVal.obj [("us", JsVal.num 7)])])
      = [ApiEffect.telemetryCb
          (JsVal.obj [("type", JsVal.str "telemetry"),
                      ("data", JsVal.obj [("us", JsVal.num 7)])])] ∧
    handleMessage (fun _ => none)
        (JsVal.obj [("type", JsVal.str "telemetry"),
                    ("data", JsVal.obj [("us", JsVal.num 7)])])
      ≠ handleTelemetryEvent
          (JsVal.obj [("type", JsVal.str "telemetry"),
                      ("data", JsVal.obj [("us", JsVal.num 7)])]) := by
  refine ⟨rfl, rfl, fun h => ?_⟩
  have hrender :
      (telemetryPayloads (handleMessage (fun _ => none)
          (JsVal.obj [("type", JsVal.str "telemetry"),
                      ("data", JsVal.obj [("us", JsVal.num 7)])]))).map renderJsonVal
        = (telemetryPayloads (handleTelemetryEvent
            (JsVal.obj [("type", JsVal.str "telemetry"),
                        ("data", JsVal.obj [("us", JsVal.num 7)])]))).map renderJsonVal := by
    rw [h]
  exact absurd hrender (by decide)

/-- C2 amended: an object payload with discriminator `telemetry` arriving
on the `message` event delivers exactly its `data` field to the
telemetry callback; the direct `telemetry` event delivers its payload
unwrapped, so the two paths coincide precisely when the direct event
carries the bare data rather than the envelope. -/
theorem telemetry_message_path_unwraps (jsonParse : String → Option JsVal)
    (fields : List (String × JsVal))
    (h : objLookup fields "type" = JsVal.str "telemetry") :
    handleMessage jsonParse (JsVal.obj fields)
      = [ApiEffect.telemetryCb (objLookup fields "data")] ∧
    handleTelemetryEvent (objLookup fields "data")
      = handleMessage jsonParse (JsVal.obj fields) := by
  have hm : handleMessage jsonParse (JsVal.obj fields)
      = [ApiEffect.telemetryCb (objLookup fields "data")] := by
    show classifyMessage (JsVal.obj fields)
      = [ApiEffect.telemetryCb (objLookup fields "data")]
    rw [classifyMessage]
    simp [getField, h, isStr]
  exact ⟨hm, hm.symm⟩

/-- C2 witness: the enveloped payload `\x7b type: "telemetry",
data: 1 \x7d` on the `message` event invokes the telemetry callback
with `1`. -/
theorem telemetry_message_path_unwraps_witness :
    objLookup [("type", JsVal.str "telemetry"), ("data", JsVal.num 1)] "type"
      = JsVal.str "telemetry" ∧
    handleMessage (fun _ => none)
        (JsVal.obj [("type", JsVal.str "telemetry"), ("data", JsVal.num 1)])
      = [ApiEffect.telemetryCb
          (objLookup [("type", JsVal.str "telemetry"), ("data", JsVal.num 1)] "data")] :=
  ⟨rfl,
   (telemetry_message_path_unwraps (fun _ => none)
       [("type", JsVal.str "telemetry"), ("data", JsVal.num 1)] rfl).1⟩

/-- C6 counterexample: the fallback-path log callbacks do fire with the
expected messages, but the UI handler categorizes both as `sys` — the
fallback-marked entry is not an outbound (`tx`) entry and the `"OK"`
response entry is not an inbound (`rx`) entry, because neither message
begins with `TX` or `RX`. -/
theorem sendCmd_fallback_log_not_outbound_cex :
    sendCmd false (Except.ok "OK") "STOP"
      = Except.ok [ApiEffect.logCb "HTTP: STOP (Fallback)",
                   ApiEffect.httpPost "\x7b\"c\":\"STOP\"\x7d",
                   ApiEffect.logCb "HTTP Resp: OK"] ∧
    classifyLogType "HTTP: STOP (Fallback)" ≠ LogCategory.tx ∧
    classifyLogType "HTTP Resp: OK" ≠ LogCategory.rx :=
  ⟨rfl, by decide, by decide⟩

/-- C6 amended: with the channel disconnected, `sendCmd("STOP")` issues
exactly one fallback request with JSON body `\x7b"c":"STOP"\x7d`,
produces exactly one log callback marked as fallback and — on text
response `"OK"` — exactly one further log callback containing `"OK"`;
the UI records both entries with category `sys` (not outbound/inbound)
since the messages carry no `TX`/`RX` prefix. -/
theorem sendCmd_fallback_stop_scenario :
    effectsOf (sendCmd false (Except.ok "OK") "STOP")
      = [ApiEffect.logCb "HTTP: STOP (Fallback)",
         ApiEffect.httpPost "\x7b\"c\":\"STOP\"\x7d",
         ApiEffect.logCb "HTTP Resp: OK"] ∧
    httpBodies (effectsOf (sendCmd false (Except.ok "OK") "STOP"))
      = ["\x7b\"c\":\"STOP\"\x7d"] ∧
    logMsgs (effectsOf (sendCmd false (Except.ok "OK") "STOP"))
      = ["HTTP: STOP (Fallback)", "HTTP Resp: OK"] ∧
    classifyLogType "HTTP: STOP (Fallback)" = LogCategory.sys ∧
    classifyLogType "HTTP Resp: OK" = LogCategory.sys ∧
    List.IsInfix "OK".data "HTTP Resp: OK".data :=
  ⟨rfl, rfl, rfl, rfl, rfl, ⟨"HTTP Resp: ".data, [], by decide⟩⟩

/-- C7: `sendCmd` returns normally for every command, connectivity state
and fetch outcome; when the channel is down and the fallback request
fails with message `m`, the effects are exactly the fallback-attempt
log, the single request, and one log callback whose message is
`"HTTP Send Failed: " ++ m` — which the UI categorizes as `sys`. -/
theorem sendCmd_no_raise_logs_failure (connected : Bool)
    (fetchResult : Except String String) (cmd m : String) :
    (∃ effs, sendCmd connected fetchResult cmd = Except.ok effs) ∧
    (connected = false → fetchResult = Except.error m →
      sendCmd connected fetchResult cmd
        = Except.ok [ApiEffect.logCb ("HTTP: " ++ cmd ++ " (Fallback)"),
                     ApiEffect.httpPost (cmdBody cmd),
                     ApiEffect.logCb ("HTTP Send Failed: " ++ m)] ∧
      (logMsgs (effectsOf (sendCmd connected fetchResult cmd))).countP
          (fun s => s == "HTTP Send Failed: " ++ m) = 1 ∧
      classifyLogType ("HTTP Send Failed: " ++ m) = LogCategory.sys) := by
  constructor
  · cases connected
    · cases fetchResult
      · exact ⟨_, rfl⟩
      · exact ⟨_, rfl⟩
    · exact ⟨_, rfl⟩
  · intro hc hf
    subst hc
    subst hf
    refine ⟨rfl, ?_, classify_http_fail_sys m⟩
    show (["HTTP: " ++ cmd ++ " (Fallback)",
           "HTTP Send Failed: " ++ m]).countP
        (fun s => s == "HTTP Send Failed: " ++ m) = 1
    simp [List.countP_cons, fallback_beq_fail_false]

/-- C7 witness: disconnected, fetch fails with `"timeout"`; the call
returns normally and exactly one log message contains `"timeout"`. -/
theorem sendCmd_no_raise_logs_failure_witness :
    sendCmd false (Except.error "timeout") "STOP"
      = Except.ok [ApiEffect.logCb "HTTP: STOP (Fallback)",
                   ApiEffect.httpPost "\x7b\"c\":\"STOP\"\x7d",
                   ApiEffect.logCb "HTTP Send Failed: timeout"] ∧
    classifyLogType "HTTP Send Failed: timeout" = LogCategory.sys ∧
    (logMsgs (effectsOf (sendCmd false (Except.error "timeout") "STOP"))).countP
        (fun s => decide (List.IsInfix "timeout".data s.data)) = 1 :=
  ⟨((sendCmd_no_raise_logs_failure false (Except.error "timeout") "STOP"
        "timeout").2 rfl rfl).1,
   ((sendCmd_no_raise_logs_failure false (Except.error "timeout") "STOP"
        "timeout").2 rfl rfl).2.2,
   by decide⟩

/-- C8 counterexample: the original claim fails in both of its parts.
The unparseable text `"not json\x7b"` yields exactly one log callback
carrying the raw text, but the resulting entry's category is `sys`, not
inbound (`rx`), because the raw text does not begin with `RX`; and the
unparseable text `"RX blah\x7b"` yields an entry whose message is
`"blah\x7b"` — the leading `RX` tag is stripped, so the message is not
the raw text verbatim. -/
theorem unparseable_text_not_inbound_cex :
    handleMessage (fun _ => none) (JsVal.str "not json\x7b")
      = [ApiEffect.logCb "not json\x7b"] ∧
    classifyLogType "not json\x7b" = LogCategory.sys ∧
    LogCategory.sys ≠ LogCategory.rx ∧
    handleMessage (fun _ => none) (JsVal.str "RX blah\x7b")
      = [ApiEffect.logCb "RX blah\x7b"] ∧
    stripLogTag "RX blah\x7b" = "blah\x7b" ∧
    "blah\x7b" ≠ "RX blah\x7b" :=
  ⟨rfl, rfl, by decide, rfl, rfl, by decide⟩

/-- C8 amended: every inbound text payload that fails structured parse
produces exactly one log callback, carrying the raw text — no telemetry
or acknowledgement callback fires and no further classification is
attempted.  The UI entry built from that callback has its category
derived from the text's own prefix and its message equal to the raw
text with one leading `TX`/`RX`/`SYS` tag (plus optional colon and
whitespace) stripped; in particular, text with no `TX`/`RX` prefix is
categorized `sys`, and text bearing no tag at all is kept verbatim. -/
theorem unparseable_text_logged_raw (jsonParse : String → Option JsVal)
    (s id ts : String) (prev : List LogEntry) (hp : jsonParse s = none) :
    handleMessage jsonParse (JsVal.str s) = [ApiEffect.logCb s] ∧
    (onLogHandler id ts s prev).head?
      = some ⟨id, ts, classifyLogType s, stripLogTag s⟩ ∧
    (jsStartsWith s "TX" = false → jsStartsWith s "RX" = false →
      classifyLogType s = LogCategory.sys) ∧
    (jsStartsWith s "TX" = false → jsStartsWith s "RX" = false →
      s.data.take 3 ≠ ['S', 'Y', 'S'] → stripLogTag s = s) := by
  refine ⟨?_, ?_, ?_, ?_⟩
  · simp only [handleMessage]
    rw [hp]
    rfl
  · rw [onLogHandler, addLog]
    rw [show (100 : Nat) = 99 + 1 from rfl, List.take_succ_cons]
    rfl
  · intro h1 h2
    simp [classifyLogType, h1, h2]
  · intro h1 h2 h3
    have t1 : s.data.take 2 ≠ ['T', 'X'] :=
      take_ne_of_startsWith_eq_false s "TX" h1
    have t2 : s.data.take 2 ≠ ['R', 'X'] :=
      take_ne_of_startsWith_eq_false s "RX" h2
    simp only [stripLogTag]
    rw [if_neg t1, if_neg t2, if_neg h3]

/-- C8 witness: the plain text `"plain text"` (no tag, parse fails)
produces the single raw-text log callback and a verbatim `sys` entry. -/
theorem unparseable_text_logged_raw_witness :
    handleMessage (fun _ => none) (JsVal.str "plain text")
      = [ApiEffect.logCb "plain text"] ∧
    (onLogHandler "i" "t" "plain text" []).head?
      = some ⟨"i", "t", classifyLogType "plain text", stripLogTag "plain text"⟩ ∧
    classifyLogType "plain text" = LogCategory.sys ∧
    stripLogTag "plain text" = "plain text" :=
  ⟨(unparseable_text_logged_raw (fun _ => none) "plain text" "i" "t" [] rfl).1,
   (unparseable_text_logged_raw (fun _ => none) "plain text" "i" "t" [] rfl).2.1,
   (unparseable_text_logged_raw (fun _ => none) "plain text" "i" "t" [] rfl).2.2.1
     rfl rfl,
   (unparseable_text_logged_raw (fun _ => none) "plain text" "i" "t" [] rfl).2.2.2
     rfl rfl (by decide)⟩

/-- C9 counterexample: the payload
`\x7b type: "ack", data: \x7b ok: true \x7d \x7d` invokes the
acknowledgement callback with the JSON rendering of `data` and produces
exactly one additional log callback — but the resulting log entry is
categorized `sys`, not inbound (`rx`), because the message
`"ACK: ..."` does not begin with `RX`. -/
theorem ack_log_entry_not_inbound_cex :
    handleMessage (fun _ => none)
        (JsVal.obj [("type", JsVal.str "ack"),
                    ("data", JsVal.obj [("ok", JsVal.bool true)])])
      = [ApiEffect.ackCb (some "\x7b\"ok\":true\x7d"),
         ApiEffect.logCb "ACK: \x7b\"ok\":true\x7d"] ∧
    classifyLogType "ACK: \x7b\"ok\":true\x7d" ≠ LogCategory.rx :=
  ⟨rfl, by decide⟩

/-- C9 amended: every object payload with discriminator `ack` invokes
the acknowledgement callback with the JSON rendering of its `data` field
and produces exactly one additional log callback reporting that
rendering; the UI categorizes the resulting entry as `sys`, since
`"ACK: ..."` carries no `RX` prefix. -/
theorem ack_dispatch (jsonParse : String → Option JsVal)
    (fields : List (String × JsVal))
    (h : objLookup fields "type" = JsVal.str "ack") :
    handleMessage jsonParse (JsVal.obj fields)
      = [ApiEffect.ackCb (jsonStringify (objLookup fields "data")),
         ApiEffect.logCb
           ("ACK: " ++ templateOpt (jsonStringify (objLookup fields "data")))] ∧
    classifyLogType
        ("ACK: " ++ templateOpt (jsonStringify (objLookup fields "data")))
      = LogCategory.sys := by
  constructor
  · show classifyMessage (JsVal.obj fields)
      = [ApiEffect.ackCb (jsonStringify (objLookup fields "data")),
         ApiEffect.logCb
           ("ACK: " ++ templateOpt (jsonStringify (objLookup fields "data")))]
    rw [classifyMessage]
    simp [getField, h, isStr, robotLog]
  · exact classify_ack_sys _

/-- C9 witness: the payload `\x7b type: "ack", data: \x7b ok: true
\x7d \x7d`. -/
theorem ack_dispatch_witness :
    handleMessage (fun _ => none)
        (JsVal.obj [("type", JsVal.str "ack"),
                    ("data", JsVal.obj [("ok", JsVal.bool true)])])
      = [ApiEffect.ackCb
           (jsonStringify (objLookup
             [("type", JsVal.str "ack"),
              ("data", JsVal.obj [("ok", JsVal.bool true)])] "data")),
         ApiEffect.logCb
           ("ACK: " ++ templateOpt (jsonStringify (objLookup
             [("type", JsVal.str "ack"),
              ("data", JsVal.obj [("ok", JsVal.bool true)])] "data")))] :=
  (ack_dispatch (fun _ => none)
      [("type", JsVal.str "ack"), ("data", JsVal.obj [("ok", JsVal.bool true)])]
      rfl).1

/-- C10: `RobotApi.log` discards its category argument — any two
invocations with the same message produce the same effect — and the
category of the resulting UI entry is computed from the message text
alone: a message beginning with neither `TX` nor `RX` is always recorded
as a `sys` entry, whatever type the core passed. -/
theorem log_type_arg_discarded (t1 t2 id ts msg : String)
    (prev : List LogEntry)
    (h1 : jsStartsWith msg "TX" = false) (h2 : jsStartsWith msg "RX" = false) :
    robotLog t1 msg = robotLog t2 msg ∧
    classifyLogType msg = LogCategory.sys ∧
    (onLogHandler id ts msg prev).head?
      = some ⟨id, ts, LogCategory.sys, stripLogTag msg⟩ := by
  have hc : classifyLogType msg = LogCategory.sys := by
    simp [classifyLogType, h1, h2]
  refine ⟨rfl, hc, ?_⟩
  rw [onLogHandler, hc, addLog]
  rw [show (100 : Nat) = 99 + 1 from rfl, List.take_succ_cons]
  rfl

/-- C10 witness: a message the core logs with type `'RX'` whose text
starts with `ACK:` lands as a `sys` entry. -/
theorem log_type_arg_discarded_witness :
    jsStartsWith "ACK: done" "TX" = false ∧
    robotLog "RX" "ACK: done" = robotLog "SYS" "ACK: done" ∧
    classifyLogType "ACK: done" = LogCategory.sys :=
  ⟨rfl,
   (log_type_arg_discarded "RX" "SYS" "i" "t" "ACK: done" [] rfl rfl).1,
   (log_type_arg_discarded "RX" "SYS" "i" "t" "ACK: done" [] rfl rfl).2.1⟩
